import Mathlib

/-!
Shallow embedding of the TaskManager core (Task record, TaskModel list model,
TaskController aggregator) from `src/src/cpp`, together with theorems settling
the specification claims about it.

Modelling conventions:
- `QString` is modelled as `String`; `QString::trimmed` as `String.trim`.
- `QDateTime::currentDateTime()` is modelled as an explicit `now : Nat`
  parameter passed to any operation that constructs a `Task`.
- Qt signals are modelled as explicit event lists: each mutating operation
  returns, alongside its result, the list of notifications it emits, in
  emission order.  Signal delivery is synchronous and direct, so a `Task`
  field signal is delivered to `TaskModel.onTaskChanged` (which re-emits a
  `dataChanged` row notification with an empty role list) at the point of
  emission, and every `TaskModel` notification is delivered to the connected
  `TaskController` slot at the point of emission.
- C++ `int` is modelled as `Int`.
-/

namespace TaskManager

/-- `QString::trimmed`: the string with leading and trailing whitespace
removed.  Implemented on the underlying character list (rather than through
`String.trim`, whose byte-position implementation does not reduce inside
the kernel). -/
def trimmed (s : String) : String :=
  ⟨((s.data.dropWhile Char.isWhitespace).reverse.dropWhile Char.isWhitespace).reverse⟩

/-- `QString::isEmpty`: the string has no characters. -/
def strIsEmpty (s : String) : Bool :=
  s.data.isEmpty

/-- A task record, from `Task.h` / `Task.cpp`: title, description, completed
flag, creation timestamp and integer priority. -/
structure Task where
  title : String
  description : String
  completed : Bool
  createdAt : Nat
  priority : Int
deriving Repr, DecidableEq

namespace Task

/-- `Task::Priority::Low = 0`. -/
def Low : Int := 0

/-- `Task::Priority::Medium = 1`. -/
def Medium : Int := 1

/-- `Task::Priority::High = 2`. -/
def High : Int := 2

/-- The two-argument constructor `Task::Task(title, description, parent)`:
completed `false`, priority `Medium`, `createdAt` the construction time. -/
def make (title description : String) (now : Nat) : Task :=
  { title := title, description := description, completed := false,
    createdAt := now, priority := Medium }

/-- `Task::setTitle`: stores the new title and reports whether
`titleChanged` was emitted (only when the value actually changes). -/
def setTitle (t : Task) (ttl : String) : Task × Bool :=
  if t.title ≠ ttl then ({ t with title := ttl }, true) else (t, false)

/-- `Task::setDescription`: stores the new description and reports whether
`descriptionChanged` was emitted. -/
def setDescription (t : Task) (desc : String) : Task × Bool :=
  if t.description ≠ desc then ({ t with description := desc }, true) else (t, false)

/-- `Task::setCompleted`: stores the new completed flag and reports whether
`completedChanged` was emitted. -/
def setCompleted (t : Task) (comp : Bool) : Task × Bool :=
  if t.completed ≠ comp then ({ t with completed := comp }, true) else (t, false)

/-- `Task::setPriority`: the guard in the source is
`priority >= Low && priority <= High && priority != prio`, testing the
STORED `priority` field against the range, not the argument `prio`.
Reports whether `priorityChanged` was emitted. -/
def setPriority (t : Task) (prio : Int) : Task × Bool :=
  if t.priority ≥ Low ∧ t.priority ≤ High ∧ t.priority ≠ prio then
    ({ t with priority := prio }, true)
  else (t, false)

/-- `Task::isValid`: the trimmed title is non-empty. -/
def isValid (t : Task) : Bool :=
  !strIsEmpty (trimmed t.title)

/-- `Task::priorityString`: switch on the stored priority with a defensive
default branch returning `"Unknown"`. -/
def priorityString (t : Task) : String :=
  if t.priority = Low then "Low"
  else if t.priority = Medium then "Medium"
  else if t.priority = High then "High"
  else "Unknown"

/-- A sequence of `setPriority` calls applied in order. -/
def applySetPriorities (t : Task) (ps : List Int) : Task :=
  ps.foldl (fun t p => (t.setPriority p).1) t

end Task

/-- The role enumeration `TaskModel::TaskRoles` from `TaskModel.h`. -/
inductive Role where
  | TitleRole
  | DescriptionRole
  | CompletedRole
  | CreatedAtRole
  | PriorityRole
  | TaskObjectRole
deriving Repr, DecidableEq

/-- A `QVariant` value, restricted to the payloads the core actually moves
through `data`/`setData`: the invalid variant, strings, ints, bools,
timestamps and task-object references. -/
inductive QVariant where
  | invalid
  | str (s : String)
  | int (n : Int)
  | bool (b : Bool)
  | date (n : Nat)
  | taskObj (t : Task)
deriving Repr, DecidableEq

namespace QVariant

/-- `QVariant::toBool` on the payloads that occur here: an invalid variant
converts to `false`, an int to its non-zeroness. -/
def toBool : QVariant → Bool
  | .bool b => b
  | .int n => n ≠ 0
  | _ => false

/-- `QVariant::toInt` on the payloads that occur here. -/
def toInt : QVariant → Int
  | .int n => n
  | .bool b => if b then 1 else 0
  | _ => 0

/-- `QVariant::toString` on the payloads that occur here. -/
def toString : QVariant → String
  | .str s => s
  | _ => ""

end QVariant

/-- A notification, modelling the Qt signals the core emits:
`dataChanged(row, roles)` and `countChanged` from `TaskModel` (row-insertion
and row-removal framing signals included for completeness), and the three
statistics signals from `TaskController`. -/
inductive Event where
  | rowsInserted (row : Nat)
  | rowsRemoved (row : Nat)
  | dataChanged (row : Nat) (roles : List Role)
  | countChanged
  | totalTasksChanged
  | completedTasksChanged
  | pendingTasksChanged
deriving Repr, DecidableEq

/-- The list model from `TaskModel.h` / `TaskModel.cpp`: an ordered list of
task records. -/
structure TaskModel where
  tasks : List Task
deriving Repr, DecidableEq

namespace TaskModel

/-- `TaskModel::count` / `rowCount`. -/
def count (m : TaskModel) : Int :=
  m.tasks.length

/-- `TaskModel::data(index, role)`: an invalid or out-of-range index yields
the invalid variant; otherwise the requested field of the task at that row. -/
def data (m : TaskModel) (i : Int) (role : Role) : QVariant :=
  if i < 0 then QVariant.invalid
  else
    match m.tasks.get? i.toNat with
    | none => QVariant.invalid
    | some task =>
      match role with
      | Role.TitleRole => QVariant.str task.title
      | Role.DescriptionRole => QVariant.str task.description
      | Role.CompletedRole => QVariant.bool task.completed
      | Role.CreatedAtRole => QVariant.date task.createdAt
      | Role.PriorityRole => QVariant.int task.priority
      | Role.TaskObjectRole => QVariant.taskObj task

/-- `TaskModel::onTaskChanged`, as triggered by a field signal of the task at
`row`: re-emits `dataChanged(row, row)` with the default (empty) role list. -/
def onTaskChanged (row : Nat) : List Event :=
  [Event.dataChanged row []]

/-- `TaskModel::setData(index, value, role)`: invalid or out-of-range index
returns `false`; otherwise dispatches to the task's setter (whose field
signal, when emitted, synchronously triggers `onTaskChanged` first), then
emits `dataChanged(index, index, {role})` and returns `true`.  The
`CreatedAtRole`/`TaskObjectRole` cases fall into the `default` branch and
return `false`. -/
def setData (m : TaskModel) (i : Int) (value : QVariant) (role : Role) :
    TaskModel × Bool × List Event :=
  if i < 0 then (m, false, [])
  else
    match m.tasks.get? i.toNat with
    | none => (m, false, [])
    | some task =>
      match role with
      | Role.TitleRole =>
        let r := task.setTitle value.toString
        (⟨m.tasks.set i.toNat r.1⟩, true,
          (if r.2 then onTaskChanged i.toNat else []) ++ [Event.dataChanged i.toNat [Role.TitleRole]])
      | Role.DescriptionRole =>
        let r := task.setDescription value.toString
        (⟨m.tasks.set i.toNat r.1⟩, true,
          (if r.2 then onTaskChanged i.toNat else []) ++ [Event.dataChanged i.toNat [Role.DescriptionRole]])
      | Role.CompletedRole =>
        let r := task.setCompleted value.toBool
        (⟨m.tasks.set i.toNat r.1⟩, true,
          (if r.2 then onTaskChanged i.toNat else []) ++ [Event.dataChanged i.toNat [Role.CompletedRole]])
      | Role.PriorityRole =>
        let r := task.setPriority value.toInt
        (⟨m.tasks.set i.toNat r.1⟩, true,
          (if r.2 then onTaskChanged i.toNat else []) ++ [Event.dataChanged i.toNat [Role.PriorityRole]])
      | Role.CreatedAtRole => (m, false, [])
      | Role.TaskObjectRole => (m, false, [])

/-- `TaskModel::addTask(title, description)`: rejects a title whose trimmed
form is empty; otherwise appends a new task built from the TRIMMED title,
framed by row-insertion signals, and emits `countChanged`. -/
def addTask (m : TaskModel) (title description : String) (now : Nat) :
    TaskModel × Bool × List Event :=
  if strIsEmpty (trimmed title) then (m, false, [])
  else
    (⟨m.tasks ++ [Task.make (trimmed title) description now]⟩, true,
      [Event.rowsInserted m.tasks.length, Event.countChanged])

/-- `TaskModel::removeTask(index)`: rejects an out-of-bounds index; otherwise
deletes the task at that index (later tasks shift down by one), framed by
row-removal signals, and emits `countChanged`. -/
def removeTask (m : TaskModel) (i : Int) : TaskModel × Bool × List Event :=
  if i < 0 ∨ (m.tasks.length : Int) ≤ i then (m, false, [])
  else
    (⟨m.tasks.eraseIdx i.toNat⟩, true,
      [Event.rowsRemoved i.toNat, Event.countChanged])

/-- `TaskModel::toggleCompleted(index)`: no-op on an out-of-bounds index;
otherwise flips the completed flag of the task at that index through
`Task::setCompleted`, whose `completedChanged` signal triggers
`onTaskChanged`. -/
def toggleCompleted (m : TaskModel) (i : Int) : TaskModel × List Event :=
  if i < 0 ∨ (m.tasks.length : Int) ≤ i then (m, [])
  else
    match m.tasks.get? i.toNat with
    | none => (m, [])
    | some task =>
      let r := task.setCompleted (!task.completed)
      (⟨m.tasks.set i.toNat r.1⟩, if r.2 then onTaskChanged i.toNat else [])

/-- The loop body of `TaskModel::clearCompleted`, iterating the index from
`n - 1` down to `0` and removing each completed task. -/
def clearCompletedLoop : TaskModel → Nat → TaskModel × List Event
  | m, 0 => (m, [])
  | m, n + 1 =>
    if (m.tasks.get? n).map Task.completed = some true then
      let r := m.removeTask (n : Int)
      let rest := clearCompletedLoop r.1 n
      (rest.1, r.2.2 ++ rest.2)
    else
      clearCompletedLoop m n

/-- `TaskModel::clearCompleted()`: removes every completed task, iterating
from the end toward the start. -/
def clearCompleted (m : TaskModel) : TaskModel × List Event :=
  clearCompletedLoop m m.tasks.length

/-- `TaskModel::getTask(index)`: `none` on an out-of-bounds index. -/
def getTask (m : TaskModel) (i : Int) : Option Task :=
  if i < 0 ∨ (m.tasks.length : Int) ≤ i then none
  else m.tasks.get? i.toNat

end TaskModel

/-- The statistics/CRUD controller from `TaskController.h` /
`TaskController.cpp`.  It owns a `TaskModel`; its constructor connects the
model's `countChanged` to `onModelCountChanged` and the model's
`dataChanged` to `onModelDataChanged`. -/
structure TaskController where
  model : TaskModel
deriving Repr, DecidableEq

namespace TaskController

/-- `TaskController::totalTasks`: the model count. -/
def totalTasks (c : TaskController) : Int :=
  c.model.count

/-- `TaskController::completedTasks`: loops `i` from `0` to `count - 1`,
incrementing for each row whose `CompletedRole` datum converts to `true`. -/
def completedTasks (c : TaskController) : Int :=
  (List.range c.model.tasks.length).foldl
    (fun count i => if (c.model.data (i : Int) Role.CompletedRole).toBool then count + 1 else count)
    0

/-- `TaskController::pendingTasks`: `totalTasks - completedTasks`. -/
def pendingTasks (c : TaskController) : Int :=
  c.totalTasks - c.completedTasks

/-- `TaskController::updateStatistics`: republishes the three statistics
signals. -/
def updateStatistics : List Event :=
  [Event.totalTasksChanged, Event.completedTasksChanged, Event.pendingTasksChanged]

/-- The controller's synchronous reaction to one model notification:
`countChanged` runs `onModelCountChanged` (hence `updateStatistics`);
`dataChanged` runs `onModelDataChanged`, which recomputes only when the
role list contains `CompletedRole`; other signals are not connected. -/
def react : Event → List Event
  | Event.countChanged => updateStatistics
  | Event.dataChanged _ roles =>
    if roles.contains Role.CompletedRole then updateStatistics else []
  | _ => []

/-- Synchronous direct-connection delivery: each model notification is
followed immediately by the controller's reaction to it. -/
def deliver (evs : List Event) : List Event :=
  evs.flatMap (fun e => e :: react e)

/-- `TaskController::createTask(title, description, priority)`: delegates to
`addTask`; on success, when the priority argument is inside
`[Task::Low, Task::High]`, applies it to the row at `count - 1` through
`setData` on `PriorityRole`.  Returns the `addTask` result. -/
def createTask (c : TaskController) (title description : String) (priority : Int) (now : Nat) :
    TaskController × Bool × List Event :=
  let a := c.model.addTask title description now
  let out1 := deliver a.2.2
  if a.2.1 ∧ priority ≥ Task.Low ∧ priority ≤ Task.High then
    let lastIndex := a.1.count - 1
    let s := a.1.setData lastIndex (QVariant.int priority) Role.PriorityRole
    (⟨s.1⟩, a.2.1, out1 ++ deliver s.2.2)
  else (⟨a.1⟩, a.2.1, out1)

/-- `TaskController::deleteTask(index)`: thin delegation to
`TaskModel::removeTask`. -/
def deleteTask (c : TaskController) (i : Int) : TaskController × Bool × List Event :=
  let r := c.model.removeTask i
  (⟨r.1⟩, r.2.1, deliver r.2.2)

/-- `TaskController::toggleTask(index)`: delegates to
`TaskModel::toggleCompleted`, then calls `updateStatistics` unconditionally. -/
def toggleTask (c : TaskController) (i : Int) : TaskController × List Event :=
  let r := c.model.toggleCompleted i
  (⟨r.1⟩, deliver r.2 ++ updateStatistics)

/-- Modelled from the spec, for the refinement comparison only: the spec
asserts the forced recompute inside `toggleTask` is redundant, so this is
`toggleTask` with the trailing `updateStatistics()` call removed, everything
else unchanged. -/
def toggleTaskWithoutForcedRecompute (c : TaskController) (i : Int) : TaskController × List Event :=
  let r := c.model.toggleCompleted i
  (⟨r.1⟩, deliver r.2)

/-- `TaskController::clearCompletedTasks()`: thin delegation to
`TaskModel::clearCompleted`. -/
def clearCompletedTasks (c : TaskController) : TaskController × List Event :=
  let r := c.model.clearCompleted
  (⟨r.1⟩, deliver r.2)

/-- Whether an event is one of the three republished statistics signals. -/
def isStatsEvent : Event → Bool
  | Event.totalTasksChanged => true
  | Event.completedTasksChanged => true
  | Event.pendingTasksChanged => true
  | _ => false

/-- Controller states reachable from the freshly constructed controller
(empty model) by any sequence of create, delete, toggle and clear
operations. -/
inductive Reachable : TaskController → Prop
  | init : Reachable ⟨⟨[]⟩⟩
  | create (t d : String) (p : Int) (now : Nat) {c : TaskController} :
      Reachable c → Reachable (c.createTask t d p now).1
  | delete (i : Int) {c : TaskController} :
      Reachable c → Reachable (c.deleteTask i).1
  | toggle (i : Int) {c : TaskController} :
      Reachable c → Reachable (c.toggleTask i).1
  | clear {c : TaskController} :
      Reachable c → Reachable c.clearCompletedTasks.1

end TaskController

/-! ### Concrete states used by witnesses and counterexamples -/

/-- A freshly constructed controller: empty model. -/
def cEmpty : TaskController := ⟨⟨[]⟩⟩

/-- A controller whose model holds one (pending) task. -/
def cOne : TaskController := ⟨⟨[Task.make "a" "" 0]⟩⟩

/-- A model with three tasks. -/
def mW : TaskModel := ⟨[Task.make "a" "" 0, Task.make "b" "" 1, Task.make "c" "" 2]⟩

/-! ### Helper lemmas -/

/-- `Task::setCompleted` applied to the negation of the current flag always
fires: the flag flips and `completedChanged` is emitted. -/
theorem setCompleted_not (t : Task) :
    t.setCompleted (!t.completed) = ({ t with completed := !t.completed }, true) := by
  unfold Task.setCompleted
  rcases t with ⟨ti, d, c, ca, p⟩
  cases c <;> simp

/-- Writing back the element already stored at an index leaves a list
unchanged. -/
theorem list_set_of_get? {α : Type} {l : List α} {n : Nat} {a : α}
    (h : l.get? n = some a) : l.set n a = l := by
  induction l generalizing n with
  | nil => simp at h
  | cons x xs ih =>
    cases n with
    | zero => simp at h; simp [h]
    | succ k =>
      simp only [List.get?_cons_succ] at h
      simp [ih h]

/-- In-bounds characterization of `TaskModel::removeTask`. -/
theorem removeTask_in_bounds (m : TaskModel) (i : Int)
    (h : ¬(i < 0 ∨ (m.tasks.length : Int) ≤ i)) :
    m.removeTask i =
      (⟨m.tasks.eraseIdx i.toNat⟩, true,
        [Event.rowsRemoved i.toNat, Event.countChanged]) := by
  unfold TaskModel.removeTask
  rw [if_neg h]

/-- Out-of-bounds characterization of `TaskModel::removeTask`. -/
theorem removeTask_out_of_bounds (m : TaskModel) (i : Int)
    (h : i < 0 ∨ (m.tasks.length : Int) ≤ i) :
    m.removeTask i = (m, false, []) := by
  unfold TaskModel.removeTask
  rw [if_pos h]

/-- A non-empty string is not `strIsEmpty`. -/
theorem strIsEmpty_false {s : String} (h : s ≠ "") : strIsEmpty s = false := by
  cases s with
  | mk data =>
    cases data with
    | nil => exact absurd rfl h
    | cons c cs => rfl

/-- `Task::setPriority` on a task whose stored priority is the default
`Medium` always stores the argument (the guard's range test passes on the
stored value). -/
theorem setPriority_of_medium (t : Task) (hm : t.priority = Task.Medium) (p : Int) :
    (t.setPriority p).1 = { t with priority := p } := by
  unfold Task.setPriority
  by_cases hp : t.priority = p
  · rw [if_neg (by rintro ⟨-, -, hne⟩; exact hne hp)]
    cases t
    simp only at hp
    simp [hp]
  · rw [if_pos ⟨by rw [hm]; decide, by rw [hm]; decide, hp⟩]

/-- Characterization of `TaskModel::addTask` on a title whose trimmed form
is non-empty. -/
theorem addTask_not_blank (m : TaskModel) (title description : String) (now : Nat)
    (h : trimmed title ≠ "") :
    m.addTask title description now =
      (⟨m.tasks ++ [Task.make (trimmed title) description now]⟩, true,
        [Event.rowsInserted m.tasks.length, Event.countChanged]) := by
  unfold TaskModel.addTask
  rw [if_neg (by simp [strIsEmpty_false h])]

/-- Characterization of `TaskModel::setData` on `PriorityRole` at the last
position of a model whose list ends in `t`. -/
theorem setData_priority_append (l : List Task) (t : Task) (p : Int) :
    (TaskModel.mk (l ++ [t])).setData ((TaskModel.mk (l ++ [t])).count - 1)
        (QVariant.int p) Role.PriorityRole =
      (⟨l ++ [(t.setPriority p).1]⟩, true,
        (if (t.setPriority p).2 then TaskModel.onTaskChanged l.length else []) ++
          [Event.dataChanged l.length [Role.PriorityRole]]) := by
  have hidx : ((TaskModel.mk (l ++ [t])).count - 1) = (l.length : Int) := by
    unfold TaskModel.count
    simp
  rw [hidx]
  unfold TaskModel.setData
  rw [if_neg (by omega)]
  rw [show ((l.length : Int)).toNat = l.length from Int.toNat_ofNat l.length]
  rw [List.get?_eq_getElem?, List.getElem?_concat_length]
  have hset : ∀ x : Task, (l ++ [t]).set l.length x = l ++ [x] := by
    intro x
    rw [List.set_append_right l.length _ (Nat.le_refl _), Nat.sub_self]
    rfl
  simp only [hset]
  rfl

/-! ### Claim theorems -/

/-- C1, counterexample: the claim says that for `p` outside `{0, 1, 2}`,
`setPriority(p)` leaves the stored value unchanged and emits nothing.  On a
freshly constructed task (stored priority `Medium`), `setPriority 5` stores
`5` and emits `priorityChanged`. -/
theorem C1_counterexample :
    ((Task.make "t" "" 0).setPriority 5).1.priority = 5 ∧
      ((Task.make "t" "" 0).setPriority 5).2 = true := by
  constructor <;> rfl

/-- C1, amended: for every task and every `p` outside `{0, 1, 2}`:
if the STORED priority is inside `{0, 1, 2}` (i.e. in `[Low, High]`) the
out-of-range argument is accepted — `p` is stored and `priorityChanged` is
emitted — because the setter's guard range-tests the stored value rather
than its argument; the call is a no-op (value unchanged, no notification)
only when the stored priority is itself out of range. -/
theorem C1_setPriority_out_of_range (t : Task) (p : Int)
    (hp : p ≠ Task.Low ∧ p ≠ Task.Medium ∧ p ≠ Task.High) :
    (Task.Low ≤ t.priority ∧ t.priority ≤ Task.High →
      t.setPriority p = ({ t with priority := p }, true)) ∧
    (¬(Task.Low ≤ t.priority ∧ t.priority ≤ Task.High) →
      t.setPriority p = (t, false)) := by
  obtain ⟨hp0, hp1, hp2⟩ := hp
  have hp0' : p ≠ 0 := hp0
  have hp1' : p ≠ 1 := hp1
  have hp2' : p ≠ 2 := hp2
  constructor
  · rintro ⟨h0, h2⟩
    have h0' : (0 : Int) ≤ t.priority := h0
    have h2' : t.priority ≤ 2 := h2
    unfold Task.setPriority
    rw [if_pos ⟨h0, h2, by omega⟩]
  · intro h
    unfold Task.setPriority
    rw [if_neg]
    rintro ⟨g0, g2, -⟩
    exact h ⟨g0, g2⟩

/-- C1, witness for the amended theorem at `p = 5` on a fresh task. -/
theorem C1_witness :
    ((5 : Int) ≠ Task.Low ∧ (5 : Int) ≠ Task.Medium ∧ (5 : Int) ≠ Task.High) ∧
    (Task.Low ≤ (Task.make "t" "" 0).priority ∧
        (Task.make "t" "" 0).priority ≤ Task.High →
      (Task.make "t" "" 0).setPriority 5 =
        ({ Task.make "t" "" 0 with priority := 5 }, true)) :=
  ⟨by decide, (C1_setPriority_out_of_range (Task.make "t" "" 0) 5 (by decide)).1⟩

/-- C9: once a task's stored priority lies outside `{0, 1, 2}`, every
subsequent sequence of `setPriority` calls, with any arguments, leaves the
task unchanged: the guard range-tests the stored value, so an out-of-range
priority can never be changed again. -/
theorem C9_out_of_range_priority_frozen (t : Task)
    (h : t.priority ≠ Task.Low ∧ t.priority ≠ Task.Medium ∧ t.priority ≠ Task.High)
    (ps : List Int) :
    t.applySetPriorities ps = t := by
  induction ps with
  | nil => rfl
  | cons p ps ih =>
    obtain ⟨h0, h1, h2⟩ := h
    have h0' : t.priority ≠ 0 := h0
    have h1' : t.priority ≠ 1 := h1
    have h2' : t.priority ≠ 2 := h2
    have hstep : (t.setPriority p).1 = t := by
      unfold Task.setPriority
      rw [if_neg]
      rintro ⟨g0, g2, -⟩
      have g0' : (0 : Int) ≤ t.priority := g0
      have g2' : t.priority ≤ 2 := g2
      omega
    calc Task.applySetPriorities t (p :: ps)
        = Task.applySetPriorities (t.setPriority p).1 ps := rfl
      _ = Task.applySetPriorities t ps := by rw [hstep]
      _ = t := ih

/-- C9, witness: a task whose priority was driven to `5` is frozen across
the argument sequence `[0, 1, 2, 7]`. -/
theorem C9_witness :
    (({ Task.make "t" "" 0 with priority := 5 } : Task).priority ≠ Task.Low ∧
      ({ Task.make "t" "" 0 with priority := 5 } : Task).priority ≠ Task.Medium ∧
      ({ Task.make "t" "" 0 with priority := 5 } : Task).priority ≠ Task.High) ∧
    Task.applySetPriorities { Task.make "t" "" 0 with priority := 5 } [0, 1, 2, 7] =
      { Task.make "t" "" 0 with priority := 5 } :=
  ⟨by decide,
    C9_out_of_range_priority_frozen { Task.make "t" "" 0 with priority := 5 }
      (by decide) [0, 1, 2, 7]⟩

/-- C4, counterexample: the claim says every task state reachable through
the public setters yields `priorityString()` in `{"Low", "Medium", "High"}`.
The reachable task obtained by `setPriority 3` on a fresh task yields
`"Unknown"`. -/
theorem C4_counterexample :
    ((Task.make "v" "" 0).setPriority 3).1.priorityString ∉
      (["Low", "Medium", "High"] : List String) := by
  decide

/-- C4, amended: `priorityString()` maps a stored priority of `Low`,
`Medium`, `High` to exactly `"Low"`, `"Medium"`, `"High"`; but the
`"Unknown"` defensive branch IS reachable through the public setters,
because `setPriority` accepts out-of-range arguments (its guard range-tests
the stored value, not the argument). -/
theorem C4_priorityString_spec (t : Task) :
    (t.priority = Task.Low → t.priorityString = "Low") ∧
    (t.priority = Task.Medium → t.priorityString = "Medium") ∧
    (t.priority = Task.High → t.priorityString = "High") ∧
    ((Task.make "u" "" 0).setPriority 3).1.priorityString = "Unknown" := by
  refine ⟨?_, ?_, ?_, by decide⟩
  · intro h
    unfold Task.priorityString
    rw [if_pos h]
  · intro h
    unfold Task.priorityString Task.Low Task.Medium at *
    rw [if_neg (by omega), if_pos h]
  · intro h
    unfold Task.priorityString Task.Low Task.Medium Task.High at *
    rw [if_neg (by omega), if_neg (by omega), if_pos h]

/-- C4, witness: the fresh task has stored priority `Medium` and maps to
`"Medium"`. -/
theorem C4_witness :
    (Task.make "w" "" 0).priority = Task.Medium ∧
      (Task.make "w" "" 0).priorityString = "Medium" :=
  ⟨rfl, (C4_priorityString_spec (Task.make "w" "" 0)).2.1 rfl⟩

/-- Characterization of `TaskController::createTask` on a non-blank title
and an in-range priority: it succeeds and appends one record built from the
trimmed title, with the priority applied to it post-insert. -/
theorem createTask_not_blank (c : TaskController) (title description : String)
    (p : Int) (now : Nat) (ht : trimmed title ≠ "")
    (h0 : p ≥ Task.Low) (h2 : p ≤ Task.High) :
    (c.createTask title description p now).2.1 = true ∧
    (c.createTask title description p now).1.model.tasks =
      c.model.tasks ++
        [{ Task.make (trimmed title) description now with priority := p }] := by
  simp only [TaskController.createTask,
    addTask_not_blank c.model title description now ht]
  split
  · refine ⟨rfl, ?_⟩
    show ((TaskModel.mk (c.model.tasks ++ [Task.make (trimmed title) description now])).setData
        _ (QVariant.int p) Role.PriorityRole).1.tasks = _
    rw [setData_priority_append c.model.tasks (Task.make (trimmed title) description now) p]
    rw [setPriority_of_medium (Task.make (trimmed title) description now) rfl p]
  · rename_i hcond
    exact absurd ⟨trivial, h0, h2⟩ hcond

/-- C3, counterexample: the claim says the appended record's title equals
the given input; `createTask` stores the TRIMMED title, so a padded title
comes back without its padding. -/
theorem C3_counterexample :
    ((cEmpty.createTask "  x  " "d" 1 7).1.model.tasks.map Task.title = ["x"]) ∧
    ((cEmpty.createTask "  x  " "d" 1 7).1.model.tasks.map Task.title ≠ ["  x  "]) := by
  decide

/-- C3, amended: for every title whose trimmed form is non-empty, every
description, and every priority in `{0, 1, 2}`: `createTask` succeeds,
`totalTasks` increases by exactly 1, and the appended record (at position
new length − 1) carries the TRIMMED title, the given description and
priority, and `completed = false`. -/
theorem C3_createTask_spec (c : TaskController) (title description : String)
    (priority : Int) (now : Nat) (ht : trimmed title ≠ "")
    (hp : priority = Task.Low ∨ priority = Task.Medium ∨ priority = Task.High) :
    (c.createTask title description priority now).2.1 = true ∧
    (c.createTask title description priority now).1.totalTasks = c.totalTasks + 1 ∧
    (c.createTask title description priority now).1.model.tasks.get?
        c.model.tasks.length =
      some { title := trimmed title, description := description,
             completed := false, createdAt := now, priority := priority } := by
  have h0 : priority ≥ Task.Low := by rcases hp with h | h | h <;> rw [h] <;> decide
  have h2 : priority ≤ Task.High := by rcases hp with h | h | h <;> rw [h] <;> decide
  obtain ⟨hs, hm⟩ := createTask_not_blank c title description priority now ht h0 h2
  refine ⟨hs, ?_, ?_⟩
  · unfold TaskController.totalTasks TaskModel.count
    rw [hm, List.length_append]
    simp
  · rw [hm, List.get?_eq_getElem?, List.getElem?_concat_length]
    rfl

/-- C3, witness: a padded title, description `"d"`, priority `High`. -/
theorem C3_witness :
    (trimmed "  a  " ≠ "" ∧
      ((2 : Int) = Task.Low ∨ (2 : Int) = Task.Medium ∨ (2 : Int) = Task.High)) ∧
    ((cEmpty.createTask "  a  " "d" 2 7).2.1 = true ∧
      (cEmpty.createTask "  a  " "d" 2 7).1.totalTasks = cEmpty.totalTasks + 1 ∧
      (cEmpty.createTask "  a  " "d" 2 7).1.model.tasks.get?
          cEmpty.model.tasks.length =
        some { title := trimmed "  a  ", description := "d", completed := false,
               createdAt := 7, priority := 2 }) :=
  ⟨⟨by decide, by decide⟩,
    C3_createTask_spec cEmpty "  a  " "d" 2 7 (by decide) (by decide)⟩

/-- C5: `removeTask(i)` on an in-bounds index succeeds and removes exactly
the record at position `i` — the result is the records before `i` followed
by the records after `i`, each of the latter shifted down by one position;
on an out-of-bounds index it fails and leaves the collection unchanged. -/
theorem C5_removeTask_spec (m : TaskModel) (i : Int) :
    (0 ≤ i ∧ i < (m.tasks.length : Int) →
      (m.removeTask i).2.1 = true ∧
      (m.removeTask i).1.tasks = m.tasks.take i.toNat ++ m.tasks.drop (i.toNat + 1)) ∧
    (i < 0 ∨ (m.tasks.length : Int) ≤ i →
      (m.removeTask i).2.1 = false ∧ (m.removeTask i).1 = m) := by
  constructor
  · rintro ⟨h0, hl⟩
    rw [removeTask_in_bounds m i (by omega)]
    exact ⟨rfl, List.eraseIdx_eq_take_drop_succ m.tasks i.toNat⟩
  · intro h
    rw [removeTask_out_of_bounds m i h]
    exact ⟨rfl, rfl⟩

/-- C5, witness: removing index `1` from a three-task model succeeds and
leaves the first and third records, the latter shifted to position `1`. -/
theorem C5_witness :
    (0 ≤ (1 : Int) ∧ (1 : Int) < (mW.tasks.length : Int)) ∧
    ((mW.removeTask 1).2.1 = true ∧
      (mW.removeTask 1).1.tasks = mW.tasks.take 1 ++ mW.tasks.drop 2) :=
  ⟨⟨by decide, by decide⟩, (C5_removeTask_spec mW 1).1 ⟨by decide, by decide⟩⟩

/-- C6: `createTask` with a title whose trimmed form is empty returns
failure and leaves the controller — in particular its collection — exactly
unchanged. -/
theorem C6_createTask_blank_title (c : TaskController) (title description : String)
    (priority : Int) (now : Nat) (h : trimmed title = "") :
    (c.createTask title description priority now).2.1 = false ∧
      (c.createTask title description priority now).1 = c := by
  have hempty : strIsEmpty (trimmed title) = true := by rw [h]; rfl
  unfold TaskController.createTask TaskModel.addTask
  rw [if_pos hempty]
  simp [TaskController.deliver]

/-- C6, witness: a whitespace-only title on the empty controller. -/
theorem C6_witness :
    (trimmed "   " = "") ∧
    ((cEmpty.createTask "   " "d" 1 7).2.1 = false ∧
      (cEmpty.createTask "   " "d" 1 7).1 = cEmpty) :=
  ⟨by decide, C6_createTask_blank_title cEmpty "   " "d" 1 7 (by decide)⟩

/-- C8: in every controller state reachable by any sequence of create,
delete, toggle and clear operations, `completedTasks + pendingTasks =
totalTasks`. -/
theorem C8_statistics_invariant (c : TaskController) (_h : TaskController.Reachable c) :
    c.completedTasks + c.pendingTasks = c.totalTasks := by
  unfold TaskController.pendingTasks
  ring

/-- After running the `clearCompleted` loop from index `n - 1` down to `0`,
no completed task remains, provided the tasks at indices `≥ n` were already
not completed when the loop started. -/
theorem clearCompletedLoop_clean (n : Nat) :
    ∀ m : TaskModel, n ≤ m.tasks.length →
      (∀ k, n ≤ k → (m.tasks.get? k).map Task.completed ≠ some true) →
      ∀ t ∈ (TaskModel.clearCompletedLoop m n).1.tasks, t.completed = false := by
  induction n with
  | zero =>
    intro m _ hclean t ht
    obtain ⟨k, hk⟩ := List.mem_iff_get?.1 ht
    have hk' : m.tasks.get? k = some t := hk
    cases hb : t.completed
    · rfl
    · exact absurd (by rw [hk']; simp [hb]) (hclean k (Nat.zero_le k))
  | succ n ih =>
    intro m hn hclean
    unfold TaskModel.clearCompletedLoop
    split
    · rename_i hcomp
      have hlt : n < m.tasks.length := by
        rcases hopt : m.tasks.get? n with _ | u
        · rw [hopt] at hcomp; simp at hcomp
        · rw [List.get?_eq_getElem?] at hopt
          have := List.getElem?_eq_some_iff.1 hopt
          exact this.1
      have hr : m.removeTask (n : Int) =
          (⟨m.tasks.eraseIdx n⟩, true,
            [Event.rowsRemoved n, Event.countChanged]) := by
        have := removeTask_in_bounds m (n : Int) (by omega)
        simpa using this
      simp only [hr]
      apply ih
      · have hlen : (m.tasks.eraseIdx n).length = m.tasks.length - 1 :=
          List.length_eraseIdx_of_lt hlt
        show n ≤ (m.tasks.eraseIdx n).length
        omega
      · intro k hk
        show ((m.tasks.eraseIdx n).get? k).map Task.completed ≠ some true
        rw [List.get?_eq_getElem?, List.getElem?_eraseIdx_of_ge _ _ _ hk]
        have := hclean (k + 1) (by omega)
        rw [List.get?_eq_getElem?] at this
        exact this
    · rename_i hcomp
      apply ih m (by omega)
      intro k hk
      rcases Nat.eq_or_lt_of_le hk with heq | hlt'
      · rw [← heq]
        exact hcomp
      · exact hclean k (by omega)

/-- After `TaskModel::clearCompleted`, no completed task remains. -/
theorem clearCompleted_clean (m : TaskModel) :
    ∀ t ∈ m.clearCompleted.1.tasks, t.completed = false := by
  apply clearCompletedLoop_clean m.tasks.length m (Nat.le_refl _)
  intro k hk
  rw [List.get?_eq_getElem?, List.getElem?_eq_none hk]
  simp

/-- On a model with no completed task, the `clearCompleted` loop removes
nothing and emits nothing. -/
theorem clearCompletedLoop_of_clean (m : TaskModel) (n : Nat)
    (h : ∀ t ∈ m.tasks, t.completed = false) :
    TaskModel.clearCompletedLoop m n = (m, []) := by
  induction n with
  | zero => rfl
  | succ n ih =>
    unfold TaskModel.clearCompletedLoop
    have hnot : ¬((m.tasks.get? n).map Task.completed = some true) := by
      intro hcomp
      rcases hopt : m.tasks.get? n with _ | t
      · rw [hopt] at hcomp; simp at hcomp
      · rw [hopt] at hcomp
        simp [h t (List.get?_mem hopt)] at hcomp
    rw [if_neg hnot]
    exact ih

/-- C7: `clearCompletedTasks` is idempotent — a second call leaves the
controller state exactly as the first left it — and after one call no
record with `completed = true` remains. -/
theorem C7_clearCompletedTasks_idempotent (c : TaskController) :
    c.clearCompletedTasks.1.clearCompletedTasks.1 = c.clearCompletedTasks.1 ∧
    c.clearCompletedTasks.1.model.tasks.all (fun t => !t.completed) = true := by
  have hclean := clearCompleted_clean c.model
  have h2 : (c.clearCompletedTasks.1.model).clearCompleted =
      (c.clearCompletedTasks.1.model, ([] : List Event)) :=
    clearCompletedLoop_of_clean _ _ hclean
  constructor
  · show TaskController.mk (c.clearCompletedTasks.1.model.clearCompleted).1 = _
    rw [h2]
  · rw [List.all_eq_true]
    intro t ht
    simp [hclean t ht]

/-- In-bounds characterization of `TaskModel::toggleCompleted`. -/
theorem toggleCompleted_in_bounds (m : TaskModel) (i : Int) (t : Task)
    (h : ¬(i < 0 ∨ (m.tasks.length : Int) ≤ i))
    (hget : m.tasks.get? i.toNat = some t) :
    m.toggleCompleted i =
      (⟨m.tasks.set i.toNat { t with completed := !t.completed }⟩,
        [Event.dataChanged i.toNat []]) := by
  unfold TaskModel.toggleCompleted
  rw [if_neg h, hget]
  simp [setCompleted_not, TaskModel.onTaskChanged]

/-- C10: at the collection level, `toggleCompleted` is an involution on
in-bounds indices — two successive calls restore the model exactly — and a
single call on an out-of-bounds index already leaves the model unchanged. -/
theorem C10_toggleCompleted_involution (m : TaskModel) (i : Int) :
    (0 ≤ i ∧ i < (m.tasks.length : Int) →
      ((m.toggleCompleted i).1.toggleCompleted i).1 = m) ∧
    (i < 0 ∨ (m.tasks.length : Int) ≤ i →
      (m.toggleCompleted i).1 = m) := by
  constructor
  · rintro ⟨h0, hl⟩
    have hnb : ¬(i < 0 ∨ (m.tasks.length : Int) ≤ i) := by omega
    have hlt : i.toNat < m.tasks.length := by omega
    have hget : m.tasks.get? i.toNat = some (m.tasks.get ⟨i.toNat, hlt⟩) :=
      List.get?_eq_get hlt
    rw [toggleCompleted_in_bounds m i _ hnb hget]
    have hnb2 : ¬(i < 0 ∨
        (((m.tasks.set i.toNat
            { m.tasks.get ⟨i.toNat, hlt⟩ with
                completed := !(m.tasks.get ⟨i.toNat, hlt⟩).completed }).length : Nat) : Int) ≤ i) := by
      rw [List.length_set]
      omega
    have hget2 : (m.tasks.set i.toNat
        { m.tasks.get ⟨i.toNat, hlt⟩ with
            completed := !(m.tasks.get ⟨i.toNat, hlt⟩).completed }).get? i.toNat =
        some { m.tasks.get ⟨i.toNat, hlt⟩ with
            completed := !(m.tasks.get ⟨i.toNat, hlt⟩).completed } := by
      rw [List.get?_eq_getElem?]
      exact List.getElem?_set_self (by simpa using hlt)
    rw [toggleCompleted_in_bounds _ i _ hnb2 hget2]
    show TaskModel.mk _ = m
    rw [List.set_set, Bool.not_not]
    have : m.tasks.set i.toNat (m.tasks.get ⟨i.toNat, hlt⟩) = m.tasks :=
      list_set_of_get? hget
    rw [this]
  · intro h
    unfold TaskModel.toggleCompleted
    rw [if_pos h]

/-- C10, witness: toggling index `1` of the three-task model twice restores
it; index `5` is out of bounds for the first conjunct's bounds check. -/
theorem C10_witness :
    (0 ≤ (1 : Int) ∧ (1 : Int) < (mW.tasks.length : Int)) ∧
    ((mW.toggleCompleted 1).1.toggleCompleted 1).1 = mW :=
  ⟨⟨by decide, by decide⟩, (C10_toggleCompleted_involution mW 1).1 ⟨by decide, by decide⟩⟩

/-- The notification list produced by `TaskModel::toggleCompleted` is either
empty or a single `dataChanged` carrying the DEFAULT (empty) role list,
since `onTaskChanged` cannot name the field that changed. -/
theorem toggleCompleted_events (m : TaskModel) (i : Int) :
    (m.toggleCompleted i).2 = [] ∨
      ∃ n, (m.toggleCompleted i).2 = [Event.dataChanged n []] := by
  unfold TaskModel.toggleCompleted
  split
  · left; rfl
  · split
    · left; rfl
    · right
      exact ⟨i.toNat, by simp [setCompleted_not, TaskModel.onTaskChanged]⟩

/-- Delivering the toggle-path notifications to the controller republishes
no statistics: the empty role list fails the `contains CompletedRole`
filter in `onModelDataChanged`. -/
theorem toggle_deliver_no_stats (m : TaskModel) (i : Int) :
    (TaskController.deliver (m.toggleCompleted i).2).filter
      TaskController.isStatsEvent = [] := by
  rcases toggleCompleted_events m i with h | ⟨n, h⟩ <;> rw [h] <;> rfl

/-- C2, counterexample: on a one-task controller, `toggleTask 0` and the
variant without the forced recompute republish DIFFERENT statistics (three
signals versus none), refuting the claimed equivalence. -/
theorem C2_counterexample :
    ¬((cOne.toggleTask 0).2.filter TaskController.isStatsEvent =
        (cOne.toggleTaskWithoutForcedRecompute 0).2.filter
          TaskController.isStatsEvent) := by
  decide

/-- C2, amended: the forced statistics recompute in `toggleTask` is NOT
redundant.  The model's task-field-change notification reaches the
controller with an EMPTY role list (it does not identify the completed
field), so the controller's selective `dataChanged` handler never recomputes
from it: `toggleTask` republishes the three statistics exactly once — coming
entirely from the forced `updateStatistics` call — while the variant without
that call republishes none.  The two variants do produce the same model
state. -/
theorem C2_forced_recompute_essential (c : TaskController) (i : Int) :
    (c.toggleTask i).2.filter TaskController.isStatsEvent =
      [Event.totalTasksChanged, Event.completedTasksChanged,
        Event.pendingTasksChanged] ∧
    (c.toggleTaskWithoutForcedRecompute i).2.filter
      TaskController.isStatsEvent = [] ∧
    (c.toggleTask i).1 = (c.toggleTaskWithoutForcedRecompute i).1 := by
  refine ⟨?_, ?_, rfl⟩
  · have h1 : (c.toggleTask i).2 =
        TaskController.deliver (c.model.toggleCompleted i).2 ++
          TaskController.updateStatistics := rfl
    rw [h1, List.filter_append, toggle_deliver_no_stats]
    rfl
  · exact toggle_deliver_no_stats c.model i

/-- C8, witness: the state reached by one create followed by one toggle. -/
theorem C8_witness :
    TaskController.Reachable ((cEmpty.createTask "a" "" 2 0).1.toggleTask 0).1 ∧
    ((cEmpty.createTask "a" "" 2 0).1.toggleTask 0).1.completedTasks +
        ((cEmpty.createTask "a" "" 2 0).1.toggleTask 0).1.pendingTasks =
      ((cEmpty.createTask "a" "" 2 0).1.toggleTask 0).1.totalTasks :=
  ⟨TaskController.Reachable.toggle 0
      (TaskController.Reachable.create "a" "" 2 0 TaskController.Reachable.init),
    C8_statistics_invariant _
      (TaskController.Reachable.toggle 0
        (TaskController.Reachable.create "a" "" 2 0 TaskController.Reachable.init))⟩

end TaskManager
